import Mathlib

/-!
Verification development for the SoftSell landing page (`src/src/App.jsx`).

The repository is a single-page React application.  The logic verified here
is the chatbot widget (`Chatbot.handleSend`): a keyword-based response
selector over canned reply strings, the send handler that appends
conversation turns and schedules a delayed bot reply, the contact form
submit handler (`App.handleSubmit`), and the theme toggle
(`App.toggleTheme`).

Strings are modelled with Lean `String`; the JavaScript `toLowerCase` call
is modelled by ASCII lowercasing (`Char.toLower`), which agrees with
JavaScript on the ASCII range that the keyword table uses, and the
`String.prototype.includes` call by a direct substring search over the
character list.  The JavaScript truthiness test `!input.trim()` holds
exactly when every character of the input is whitespace, which is how the
guard is modelled.
-/

/-- The four canned reply strings of the chatbot, verbatim from
`App.jsx` lines 49-55. -/
def clarifyReply : String := "Can you clarify your question? I\x27m here to help!"

/-- Reply for rule 1 ("how"): the process explanation. -/
def processReply : String := "Selling is easy! Upload your license details, get a fair valuation, and receive payment within 48 hours."

/-- Reply for rule 2 ("price"/"cost"): the valuation explanation. -/
def valuationReply : String := "Valuations depend on the license type and market demand. Slug your license for a free quote!"

/-- Reply for rule 3 ("safe"/"secure"): the security assurance. -/
def securityReply : String := "All transactions are encrypted and follow strict privacy protocols."

/-- `hasPrefixL needle hay` holds when `needle` occurs at the start of
`hay`; models the anchored comparison step of `String.prototype.includes`. -/
def hasPrefixL : List Char → List Char → Bool
  | [], _ => true
  | _ :: _, [] => false
  | a :: as, b :: bs => a == b && hasPrefixL as bs

/-- `containsSub needle hay` holds when `needle` occurs as a contiguous
substring of `hay`; models `String.prototype.includes`. -/
def containsSub (needle : List Char) : List Char → Bool
  | [] => needle.isEmpty
  | c :: rest => hasPrefixL needle (c :: rest) || containsSub needle rest

/-- ASCII lowercasing of a character list; models
`String.prototype.toLowerCase` on the ASCII range. -/
def lowerL (s : List Char) : List Char := s.map Char.toLower

/-- `hasKw u kw` models `u.toLowerCase().includes(kw)` from
`Chatbot.handleSend` (App.jsx lines 50-54): case-insensitive substring
containment of the (already lowercase) keyword in the utterance. -/
def hasKw (u : String) (kw : String) : Bool := containsSub kw.data (lowerL u.data)

/-- The chatbot response selector, from the `if`/`else if` chain in
`Chatbot.handleSend` (App.jsx lines 49-56).  The source initialises
`response` to the clarification reply and overwrites it on the first
matching keyword rule; this is the equivalent first-match-wins chain. -/
def selectReply (input : String) : String :=
  if hasKw input "how" then processReply
  else if hasKw input "price" || hasKw input "cost" then valuationReply
  else if hasKw input "safe" || hasKw input "secure" then securityReply
  else clarifyReply

/-- Sender tag of a conversation turn, from the `sender` field of the
message objects in `App.jsx` (lines 35, 45, 57). -/
inductive Sender where
  | user : Sender
  | bot : Sender
deriving DecidableEq, Repr

/-- One message of the chat history: the `{ text, sender }` objects stored
in the `messages` state of `Chatbot`. -/
structure Turn where
  text : String
  sender : Sender
deriving DecidableEq, Repr

/-- The mutable state of the `Chatbot` component that `handleSend` touches:
the `messages` list and the `input` field. -/
structure ChatState where
  messages : List Turn
  input : String
deriving DecidableEq, Repr

/-- Whitespace test for the `input.trim()` guard, following the ECMA-262
TrimString definition: WhiteSpace (TAB, VT, FF, SP, NBSP, ZWNBSP and the
Unicode Zs category) together with LineTerminator (LF, CR, LS, PS). -/
def isWs (c : Char) : Bool :=
  c == ' ' || c == '\t' || c == '\n' || c == '\r' ||
  c == '\x0B' || c == '\x0C' ||
  c.toNat == 0xA0 || c.toNat == 0x1680 ||
  (0x2000 ≤ c.toNat && c.toNat ≤ 0x200A) ||
  c.toNat == 0x2028 || c.toNat == 0x2029 || c.toNat == 0x202F ||
  c.toNat == 0x205F || c.toNat == 0x3000 || c.toNat == 0xFEFF

/-- `isBlank s` models the JavaScript truthiness test `!s.trim()`: it holds
exactly when the string is empty or consists only of whitespace. -/
def isBlank (s : String) : Bool := s.data.all isWs

/-- A deferred bot reply scheduled with `setTimeout` in `handleSend`
(App.jsx line 48): the captured utterance and the delay in milliseconds. -/
structure Scheduled where
  utterance : String
  delayMs : Nat
deriving DecidableEq, Repr

/-- `Chatbot.handleSend` (App.jsx lines 41-61): on blank input it returns
without any effect; otherwise it appends the user turn, schedules one
deferred bot reply for the submitted utterance with a 600ms delay, and
clears the input field.  The closure passed to `setTimeout` captures the
`input` value of the render that created `handleSend`, so the scheduled
utterance is the submitted one. -/
def handleSend (st : ChatState) : ChatState × Option Scheduled :=
  if isBlank st.input then (st, none)
  else
    ({ messages := st.messages ++ [⟨st.input, Sender.user⟩], input := "" },
     some ⟨st.input, 600⟩)

/-- Firing of the deferred callback scheduled by `setTimeout` in
`handleSend` (App.jsx lines 48-58): computes the reply from the captured
utterance and appends it to whatever the message list is at firing time. -/
def fireReply (st : ChatState) (sch : Scheduled) : ChatState :=
  { st with messages := st.messages ++ [⟨selectReply sch.utterance, Sender.bot⟩] }

/-- The contact form state of `App` (App.jsx lines 136-142): five string
fields, all initially empty. -/
structure FormData where
  name : String
  email : String
  company : String
  licenseType : String
  message : String
deriving DecidableEq, Repr

/-- The initial (and post-reset) form state: all five fields empty. -/
def emptyForm : FormData := ⟨"", "", "", "", ""⟩

/-- The `App` component state touched by `handleSubmit` and `toggleTheme`:
the theme string, the toast visibility flag, and the form data. -/
structure AppState where
  theme : String
  showToast : Bool
  formData : FormData
deriving DecidableEq, Repr

/-- `App.handleSubmit` (App.jsx lines 172-183): shows the success toast,
resets the form fields to their initial empty state, and schedules hiding
the toast after 3000ms.  No network request is made and no other state is
touched. -/
def handleSubmit (st : AppState) : AppState × Nat :=
  ({ st with showToast := true, formData := emptyForm }, 3000)

/-- The deferred callback of `handleSubmit` (App.jsx lines 179-182):
hides the success toast. -/
def hideToast (st : AppState) : AppState := { st with showToast := false }

/-- Initial theme state (App.jsx line 134). -/
def initialTheme : String := "light"

/-- `App.toggleTheme` (App.jsx lines 167-169): maps the light theme to the
dark one and everything else to the light one. -/
def toggleTheme (t : String) : String := if t = "light" then "dark" else "light"

/-- Theme values reachable from the initial state by repeated toggling. -/
inductive ReachableTheme : String → Prop where
  | init : ReachableTheme initialTheme
  | step {t : String} : ReachableTheme t → ReachableTheme (toggleTheme t)

/-- C1: the response selector applies the keyword rules in order with first
match winning, testing case-insensitive substring containment against the
lowercased utterance: "how" gives the process-explanation reply; otherwise
"price" or "cost" gives the valuation-explanation reply; otherwise "safe"
or "secure" gives the security-assurance reply; otherwise the generic
clarification-request reply is returned. -/
theorem selectReply_first_match (u : String) :
    (hasKw u "how" = true → selectReply u = processReply) ∧
    (hasKw u "how" = false →
      (hasKw u "price" = true ∨ hasKw u "cost" = true) →
      selectReply u = valuationReply) ∧
    (hasKw u "how" = false → hasKw u "price" = false → hasKw u "cost" = false →
      (hasKw u "safe" = true ∨ hasKw u "secure" = true) →
      selectReply u = securityReply) ∧
    (hasKw u "how" = false → hasKw u "price" = false → hasKw u "cost" = false →
      hasKw u "safe" = false → hasKw u "secure" = false →
      selectReply u = clarifyReply) := by
  refine ⟨?_, ?_, ?_, ?_⟩
  · intro h; simp [selectReply, h]
  · rintro h1 (h2 | h2) <;> simp [selectReply, h1, h2]
  · rintro h1 h2 h3 (h4 | h4) <;> simp [selectReply, h1, h2, h3, h4]
  · intro h1 h2 h3 h4 h5; simp [selectReply, h1, h2, h3, h4, h5]

/-- Concrete instantiation of the first-match rule ordering: an utterance
matching the first rule receives the process-explanation reply. -/
theorem selectReply_first_match_witness : selectReply "how" = processReply :=
  (selectReply_first_match "how").1 (by decide)

/-- C2: the response selector is total: for every string it returns one of
the four fixed canned replies and nothing else. -/
theorem selectReply_total (u : String) :
    selectReply u = processReply ∨ selectReply u = valuationReply ∨
    selectReply u = securityReply ∨ selectReply u = clarifyReply := by
  unfold selectReply
  split
  · exact Or.inl rfl
  split
  · exact Or.inr (Or.inl rfl)
  split
  · exact Or.inr (Or.inr (Or.inl rfl))
  · exact Or.inr (Or.inr (Or.inr rfl))

/-- C3: every utterance containing "how" (case-insensitive, any position)
receives the process-explanation reply; "how" is the first rule, so no
earlier rule can pre-empt it. -/
theorem selectReply_how (u : String) (h : hasKw u "how" = true) :
    selectReply u = processReply := by
  simp [selectReply, h]

/-- Concrete instantiation of the "how" rule at a mixed-case utterance. -/
theorem selectReply_how_witness :
    hasKw "HOW does it work" "how" = true ∧
    selectReply "HOW does it work" = processReply :=
  ⟨by decide, selectReply_how "HOW does it work" (by decide)⟩

/-- C4: the concrete test vectors: the price question receives the
valuation-explanation reply, the mixed-case safety question receives the
security-assurance reply, and "asdf" receives the generic clarification
reply. -/
theorem selectReply_test_vectors :
    selectReply "What\x27s the price?" = valuationReply ∧
    selectReply "Is this Safe?" = securityReply ∧
    selectReply "asdf" = clarifyReply :=
  ⟨by decide, by decide, by decide⟩

/-- C5: on blank (empty or whitespace-only) input, `handleSend` returns
without calling the selector, scheduling nothing and leaving the state —
conversation history included — unchanged. -/
theorem handleSend_blank (st : ChatState) (h : isBlank st.input = true) :
    handleSend st = (st, none) := by
  simp [handleSend, h]

/-- Concrete instantiation of the blank-input guard at a whitespace-only
input. -/
theorem handleSend_blank_witness :
    isBlank "   " = true ∧
    handleSend ⟨[], "   "⟩ = (⟨[], "   "⟩, none) :=
  ⟨by decide, handleSend_blank ⟨[], "   "⟩ (by decide)⟩

/-- C6: the response selector is deterministic and stateless: equal inputs
give equal outputs, and the bot turn appended when a scheduled reply fires
is the same regardless of the conversation history at firing time. -/
theorem selectReply_stateless (u : String) (st₁ st₂ : ChatState) :
    selectReply u = selectReply u ∧
    (fireReply st₁ ⟨u, 600⟩).messages.drop st₁.messages.length =
      (fireReply st₂ ⟨u, 600⟩).messages.drop st₂.messages.length := by
  refine ⟨rfl, ?_⟩
  simp [fireReply, List.drop_left]

/-- C7: the conversation history is append-only: both the user-turn update
of `handleSend` and the bot-turn update of `fireReply` extend the message
list, so every prior history is a prefix of the later one. -/
theorem history_append_only (st : ChatState) (sch : Scheduled) :
    st.messages <+: (handleSend st).1.messages ∧
    st.messages <+: (fireReply st sch).messages := by
  constructor
  · unfold handleSend
    split
    · exact List.prefix_refl _
    · exact List.prefix_append _ _
  · exact List.prefix_append _ _

/-- C8: a non-blank submission appends exactly one user turn, clears the
input, and schedules exactly one deferred reply carrying the submitted
utterance and the 600ms delay; when that reply fires, it appends exactly
one bot turn computed from the captured utterance, whatever the state has
become in the meantime. -/
theorem handleSend_schedules_once (st : ChatState) (h : isBlank st.input = false) :
    (handleSend st).2 = some ⟨st.input, 600⟩ ∧
    (handleSend st).1.messages = st.messages ++ [⟨st.input, Sender.user⟩] ∧
    (handleSend st).1.input = "" ∧
    ∀ later : ChatState,
      (fireReply later ⟨st.input, 600⟩).messages =
        later.messages ++ [⟨selectReply st.input, Sender.bot⟩] := by
  refine ⟨?_, ?_, ?_, ?_⟩ <;> simp [handleSend, fireReply, h]

/-- Concrete instantiation of the scheduling contract at a non-blank
input. -/
theorem handleSend_schedules_once_witness :
    isBlank "hi" = false ∧
    (handleSend ⟨[], "hi"⟩).2 = some ⟨"hi", 600⟩ :=
  ⟨by decide, (handleSend_schedules_once ⟨[], "hi"⟩ (by decide)).1⟩

/-- C9: contact-form submission has no backend effect: it resets all five
form fields to empty, shows the success toast, schedules hiding it after
the 3000ms delay, and changes no other application state (the theme is
preserved by both the submission and the toast-hiding callback). -/
theorem handleSubmit_simulated (st : AppState) :
    (handleSubmit st).1.formData = emptyForm ∧
    (handleSubmit st).1.showToast = true ∧
    (handleSubmit st).1.theme = st.theme ∧
    (handleSubmit st).2 = 3000 ∧
    (hideToast (handleSubmit st).1).showToast = false ∧
    (hideToast (handleSubmit st).1).theme = st.theme ∧
    (hideToast (handleSubmit st).1).formData = emptyForm :=
  ⟨rfl, rfl, rfl, rfl, rfl, rfl, rfl⟩

/-- C10: the theme starts as light, every reachable theme state is light or
dark, one toggle swaps light and dark, and on reachable states the toggle
is an involution. -/
theorem toggleTheme_involutive :
    initialTheme = "light" ∧
    toggleTheme "light" = "dark" ∧
    toggleTheme "dark" = "light" ∧
    (∀ t, ReachableTheme t → t = "light" ∨ t = "dark") ∧
    (∀ t, ReachableTheme t → toggleTheme (toggleTheme t) = t) := by
  have hr : ∀ t, ReachableTheme t → t = "light" ∨ t = "dark" := by
    intro t h
    induction h with
    | init => exact Or.inl rfl
    | step h ih => rcases ih with h1 | h1 <;> subst h1 <;> simp [toggleTheme]
  refine ⟨rfl, by decide, by decide, hr, ?_⟩
  intro t h
  rcases hr t h with h1 | h1 <;> subst h1 <;> decide

/-- Concrete instantiation of the involution at the reachable dark state. -/
theorem toggleTheme_involutive_witness :
    toggleTheme (toggleTheme "dark") = "dark" := by
  have h : ReachableTheme "dark" := by
    have h0 := ReachableTheme.step ReachableTheme.init
    simpa [toggleTheme, initialTheme] using h0
  exact toggleTheme_involutive.2.2.2.2 "dark" h
